import Mathlib

/-!
Verification development for the mt5_ai_assistant trading core.

The Python sources under `src/core` are shallowly embedded here:

* `src/core/risk_manager.py` — `RiskManager` becomes an explicit state record
  (`RiskManagerState`) plus pure state-transition functions.  Python `Decimal`
  arithmetic (context precision 6) is modelled as exact rational arithmetic;
  exceptions crossing a method boundary are modelled by `Except RMError`, and
  the external MT5 providers (account info, symbol info, open-position and
  history profit) are passed in as explicit arguments, `Option`-valued where
  the provider may be unavailable.
* `src/core/strategies/*.py` — pandas `DataFrame`s become `Frame`s: named
  columns of `Cell := Option ℚ` (a `none` cell is pandas `NaN`).  Column
  access on a missing column raises `KeyError` in Python; this is the
  `Except AErr` effect.  Comparisons against `NaN` are `False` in pandas and
  NumPy, which `cellLt`/`cellLtq`/`cellGtq` mirror.
-/

/- ----------------------------------------------------------------------
   Risk manager (src/core/risk_manager.py)
   ---------------------------------------------------------------------- -/

/-- Result record of `calculate_position_size` (risk_manager.py, class
`PositionSizeResult`). -/
structure PositionSizeResult where
  volume : ℚ
  risk_amount : ℚ
  risk_percent : ℚ
  stop_loss_pips : ℚ
  deriving DecidableEq, Repr

/-- The fields of the symbol-metadata dict used by `RiskManager`
(`trade_tick_value`, `volume_min`, `volume_max`, `volume_step`). -/
structure SymbolInfo where
  trade_tick_value : ℚ
  volume_min : ℚ
  volume_max : ℚ
  volume_step : ℚ
  deriving DecidableEq, Repr

/-- The field of the account-info dict used by `RiskManager` (`balance`). -/
structure AccountInfo where
  balance : ℚ
  deriving DecidableEq, Repr

/-- Exceptions a `RiskManager` method can raise across its boundary.
`validation` stands for `RiskValidationError`, `management` for
`RiskManagementError` (which also absorbs provider connection errors,
since `except Exception` re-raises them as `RiskManagementError`). -/
inductive RMError where
  | validation
  | management
  deriving DecidableEq, Repr

/-- Equality of modelled exception results is decidable (used to evaluate
the embedded functions at concrete inputs). -/
instance {ε α : Type} [DecidableEq ε] [DecidableEq α] : DecidableEq (Except ε α) := fun x y =>
  match x, y with
  | .ok a, .ok b =>
    if h : a = b then .isTrue (by rw [h]) else .isFalse (by intro hh; cases hh; exact h rfl)
  | .error a, .error b =>
    if h : a = b then .isTrue (by rw [h]) else .isFalse (by intro hh; cases hh; exact h rfl)
  | .ok _, .error _ => .isFalse (by intro hh; cases hh)
  | .error _, .ok _ => .isFalse (by intro hh; cases hh)

/-- The mutable state of a `RiskManager` instance: the three risk
percentages, the daily loss limit, the accumulated daily profit, and the
stored trading day (`self.today`, here an abstract day number). -/
structure RiskManagerState where
  risk_per_trade : ℚ
  risk_all_trades : ℚ
  daily_risk : ℚ
  daily_loss_limit : ℚ
  daily_profit : ℚ
  today : ℤ
  deriving DecidableEq, Repr

/-- `RiskManager.__init__`: risk 1% / 5% / 10%, zero daily limit and profit,
`today = date.today()` (the construction day is a parameter). -/
def initialRiskManagerState (t : ℤ) : RiskManagerState :=
  { risk_per_trade := 1
    risk_all_trades := 5
    daily_risk := 10
    daily_loss_limit := 0
    daily_profit := 0
    today := t }

/-- `RiskManager._validate_risk_parameters`: each percentage must satisfy
`0 < r ≤ 100`, per-trade risk must not exceed total risk, total risk must
not exceed daily risk; otherwise `RiskValidationError` is raised. -/
def validateRiskParameters (risk_per_trade risk_all_trades daily_risk : ℚ) :
    Except RMError Unit :=
  if ¬ (0 < risk_per_trade ∧ risk_per_trade ≤ 100 ∧
        0 < risk_all_trades ∧ risk_all_trades ≤ 100 ∧
        0 < daily_risk ∧ daily_risk ≤ 100) then
    .error .validation
  else if risk_per_trade > risk_all_trades then
    .error .validation
  else if risk_all_trades > daily_risk then
    .error .validation
  else
    .ok ()

/-- `RiskManager._update_daily_limits`: fetch account info (raising
`RiskManagementError` when unavailable) and recompute
`daily_loss_limit = balance * daily_risk / 100`. -/
def updateDailyLimits (st : RiskManagerState) (account : Option AccountInfo) :
    Except RMError RiskManagerState :=
  match account with
  | none => .error .management
  | some a => .ok { st with daily_loss_limit := a.balance * (st.daily_risk / 100) }

/-- `RiskManager.update_settings`: validate the triple, then assign the three
risk fields, then recompute the daily limit.  On a validation error nothing
is mutated; if the account provider fails afterwards, the three risk fields
have already been assigned (the limit has not). -/
def updateSettings (st : RiskManagerState) (account : Option AccountInfo)
    (risk_per_trade risk_all_trades daily_risk : ℚ) :
    Except RMError Unit × RiskManagerState :=
  match validateRiskParameters risk_per_trade risk_all_trades daily_risk with
  | .error e => (.error e, st)
  | .ok _ =>
    let st1 := { st with
      risk_per_trade := risk_per_trade
      risk_all_trades := risk_all_trades
      daily_risk := daily_risk }
    match updateDailyLimits st1 account with
    | .error e => (.error e, st1)
    | .ok st2 => (.ok (), st2)

/-- `RiskManager._reset_daily_values`: store the new day, zero the daily
profit, then recompute the daily limit (which can raise after the first two
mutations have happened). -/
def resetDailyValues (st : RiskManagerState) (current_date : ℤ)
    (account : Option AccountInfo) :
    Except RMError Unit × RiskManagerState :=
  let st1 := { st with today := current_date, daily_profit := 0 }
  match updateDailyLimits st1 account with
  | .error e => (.error e, st1)
  | .ok st2 => (.ok (), st2)

/-- `RiskManager.check_daily_limits`: roll the day boundary if the injected
current date differs from the stored one (uncaught errors from the reset
propagate), then compare today's total profit
(`daily_profit + open-position profit + history profit`) against
`-daily_loss_limit`; `False` blocks new trades.  The two profit readers
swallow their own provider errors and return 0, so they enter here as plain
rational inputs. -/
def checkDailyLimits (st : RiskManagerState) (current_date : ℤ)
    (account : Option AccountInfo) (positions_profit history_profit : ℚ) :
    Except RMError Bool × RiskManagerState :=
  let rolled : Except RMError Unit × RiskManagerState :=
    if current_date ≠ st.today then resetDailyValues st current_date account
    else (.ok (), st)
  match rolled with
  | (.error e, st1) => (.error e, st1)
  | (.ok _, st1) =>
    let total_profit := st1.daily_profit + positions_profit + history_profit
    if total_profit ≤ -st1.daily_loss_limit then (.ok false, st1)
    else (.ok true, st1)

/-- `risk_amount = balance * (self._risk_per_trade / 100)`
(risk_manager.py line 279). -/
def riskAmount (balance risk_per_trade : ℚ) : ℚ :=
  balance * (risk_per_trade / 100)

/-- `volume = risk_amount / (stop_loss_pips * tick_value)`
(risk_manager.py line 282), the raw volume before constraint adjustment. -/
def rawVolume (risk_amount stop_loss_pips tick_value : ℚ) : ℚ :=
  risk_amount / (stop_loss_pips * tick_value)

/-- Truncation toward zero, the semantics of `Decimal.__floordiv__`
(`//` on `Decimal` truncates, unlike `//` on `float`/`int`).  On the
nonnegative quotients that arise below it coincides with the floor. -/
def qtrunc (q : ℚ) : ℤ :=
  if 0 ≤ q then ⌊q⌋ else -⌊-q⌋

/-- `RiskManager._adjust_volume_to_constraints`: clamp the volume into
`[volume_min, volume_max]` (in that operand order:
`max(min(volume, max_volume), min_volume)`), then round down to a whole
number of `volume_step`s via `(volume // step) * step`.  A zero step makes
the `Decimal` floor-division raise, which the caller's `except Exception`
turns into `RiskManagementError`. -/
def adjustVolumeToConstraints (volume : ℚ) (si : SymbolInfo) :
    Except RMError ℚ :=
  if si.volume_step = 0 then .error .management
  else
    let clamped := max (min volume si.volume_max) si.volume_min
    .ok ((qtrunc (clamped / si.volume_step) : ℚ) * si.volume_step)

/-- `RiskManager.calculate_position_size`.  Mirrors the source control flow:
`check_daily_limits` runs outside the `try` (its errors propagate raw and a
`False` answer returns `none`); inside the `try`, a non-positive stop-loss
raises `RiskValidationError`, which the first `except` turns into `none`;
a missing account or symbol provider raises, which `except Exception`
re-raises as `RiskManagementError` — it does *not* return `none`.
A zero `stop_loss_pips * tick_value` product makes the `Decimal` division
raise, again surfacing as `RiskManagementError` (the stop has been checked
positive, so this is the zero-tick-value case). -/
def calculatePositionSize (st : RiskManagerState) (current_date : ℤ)
    (account : Option AccountInfo) (symbol_info : Option SymbolInfo)
    (positions_profit history_profit : ℚ) (stop_loss_pips : ℚ) :
    Except RMError (Option PositionSizeResult) × RiskManagerState :=
  match checkDailyLimits st current_date account positions_profit history_profit with
  | (.error e, st1) => (.error e, st1)
  | (.ok false, st1) => (.ok none, st1)
  | (.ok true, st1) =>
    if stop_loss_pips ≤ 0 then (.ok none, st1)
    else
      match account with
      | none => (.error .management, st1)
      | some a =>
        match symbol_info with
        | none => (.error .management, st1)
        | some si =>
          let risk_amount := riskAmount a.balance st1.risk_per_trade
          if stop_loss_pips * si.trade_tick_value = 0 then (.error .management, st1)
          else
            let volume := rawVolume risk_amount stop_loss_pips si.trade_tick_value
            match adjustVolumeToConstraints volume si with
            | .error e => (.error e, st1)
            | .ok adjusted =>
              (.ok (some { volume := adjusted
                           risk_amount := risk_amount
                           risk_percent := st1.risk_per_trade
                           stop_loss_pips := stop_loss_pips }), st1)

/-- The risk-ordering invariant of §3 of the design: every percentage lies
in `(0, 100]` and `risk_per_trade ≤ risk_all_trades ≤ daily_risk`. -/
def riskOrderingInvariant (st : RiskManagerState) : Prop :=
  0 < st.risk_per_trade ∧ st.risk_per_trade ≤ st.risk_all_trades ∧
    st.risk_all_trades ≤ st.daily_risk ∧ st.daily_risk ≤ 100

instance (st : RiskManagerState) : Decidable (riskOrderingInvariant st) := by
  unfold riskOrderingInvariant; infer_instance

/- ----------------------------------------------------------------------
   pandas cells and series (shared by src/core/strategies/*.py)
   ---------------------------------------------------------------------- -/

/-- One entry of a pandas column: `none` is `NaN`. -/
abbrev Cell := Option ℚ

/-- Elementwise addition; `NaN` propagates. -/
def cadd : Cell → Cell → Cell
  | some a, some b => some (a + b)
  | _, _ => none

/-- Elementwise subtraction; `NaN` propagates. -/
def csub : Cell → Cell → Cell
  | some a, some b => some (a - b)
  | _, _ => none

/-- Elementwise multiplication; `NaN` propagates. -/
def cmul : Cell → Cell → Cell
  | some a, some b => some (a * b)
  | _, _ => none

/-- Elementwise division.  `NaN` propagates and a zero divisor yields an
undefined cell (pandas produces `NaN` for `0/0`; a nonzero numerator gives
`±inf`, which no strategy condition can turn into a trade because every
comparison involving it is bracketed — the places where an infinity would
change a value, RSI saturation and the pin-bar test, are spelled out
explicitly at their definitions below). -/
def cdiv : Cell → Cell → Cell
  | some a, some b => if b = 0 then none else some (a / b)
  | _, _ => none

/-- Absolute value of a cell. -/
def cabs : Cell → Cell
  | some a => some |a|
  | none => none

/-- Multiplication by a scalar on the left (`2 * last['atr']`). -/
def cscale (k : ℚ) : Cell → Cell
  | some a => some (k * a)
  | none => none

/-- Division by a scalar (`(prev['open'] + prev['close']) / 2`). -/
def cdivq (c : Cell) (k : ℚ) : Cell :=
  c.map (· / k)

/-- `a < b` on cells.  Any comparison with `NaN` is `False` (pandas and
NumPy semantics, also the semantics of `float('nan') < x` in Python). -/
def cellLt (a b : Cell) : Bool :=
  match a, b with
  | some x, some y => decide (x < y)
  | _, _ => false

/-- `q < c` for a scalar bound (e.g. `last['adx'] > 25`). -/
def cellGtq (c : Cell) (q : ℚ) : Bool :=
  match c with
  | some v => decide (q < v)
  | none => false

/-- `c < q` for a scalar bound (e.g. `last['rsi'] < 70`). -/
def cellLtq (c : Cell) (q : ℚ) : Bool :=
  match c with
  | some v => decide (v < q)
  | none => false

/-- Python truthiness of a cell (`last['is_pinbar'] and …`).  A `NaN`
float is truthy in Python; the boolean columns built below only ever hold
`0` or `1`, so this case does not arise in the pipeline. -/
def cellTruthy : Cell → Bool
  | some q => decide (q ≠ 0)
  | none => true

/-- Python's binary `min` on two floats: `min(a, b)` returns `b` exactly
when `b < a`, so with an undefined operand the comparison is `False` and
the *first* operand is returned (`min(last['low'], support)`). -/
def cmin (a b : Cell) : Cell :=
  if cellLt b a then b else a

/-- Python's binary `max` on two floats, mirrored from `cmin`
(`max(last['high'], resistance)`). -/
def cmax (a b : Cell) : Cell :=
  if cellLt a b then b else a

/-- Row-wise maximum that skips undefined entries, the behaviour of
`DataFrame.max(axis=1)` (`skipna=True`): defined whenever at least one
operand is. -/
def cmaxSkip (a b : Cell) : Cell :=
  match a, b with
  | some x, some y => some (max x y)
  | some x, none => some x
  | none, y => y

/-- Encode a pandas boolean-series entry as a numeric cell. -/
def boolCell (b : Bool) : Cell :=
  some (if b then 1 else 0)

/-- Read a series at an index; out-of-range reads are undefined (a series
built by the pipeline is only ever indexed inside its length). -/
def getC (s : List Cell) (i : ℕ) : Cell :=
  (s.get? i).getD none

/-- Build a series of length `n` from a per-index cell function; every
pipeline column is expressed this way so that columns stay aligned with
the bar series. -/
def seriesOfFn (n : ℕ) (f : ℕ → Cell) : List Cell :=
  (List.range n).map f

/-- `Series.diff()`: `out[i] = s[i] - s[i-1]`, undefined at index 0. -/
def diffS (s : List Cell) : List Cell :=
  seriesOfFn s.length (fun i => if i = 0 then none else csub (getC s i) (getC s (i - 1)))

/-- Extract the values of a run of cells, failing on any undefined one. -/
def allSome : List Cell → Option (List ℚ)
  | [] => some []
  | none :: _ => none
  | some x :: rest => (allSome rest).map (x :: ·)

/-- Collect a window of `n` cells ending at index `i`; `none` when any
entry is undefined (with the default `min_periods`, a rolling window
containing a `NaN` produces `NaN`). -/
def windowAt (s : List Cell) (n i : ℕ) : Option (List ℚ) :=
  allSome ((List.range n).map (fun j => getC s (i + 1 - n + j)))

/-- `Series.rolling(n).mean()`: undefined before `n` observations exist or
when the window contains an undefined entry. -/
def rollingMean (n : ℕ) (s : List Cell) : List Cell :=
  seriesOfFn s.length (fun i =>
    if i + 1 < n then none
    else (windowAt s n i).map (fun vs => vs.sum / n))

/-- `Series.rolling(n).min()` under the same definedness rules. -/
def rollingMin (n : ℕ) (s : List Cell) : List Cell :=
  seriesOfFn s.length (fun i =>
    if i + 1 < n then none
    else (windowAt s n i).map (fun vs => vs.foldr min (vs.headD 0)))

/-- `Series.rolling(n).max()` under the same definedness rules. -/
def rollingMax (n : ℕ) (s : List Cell) : List Cell :=
  seriesOfFn s.length (fun i =>
    if i + 1 < n then none
    else (windowAt s n i).map (fun vs => vs.foldr max (vs.headD 0)))

/-- `Series.cumsum()`: undefined entries stay undefined, accumulation
continues across them (pandas default `skipna`). -/
def cumsumGo (acc : ℚ) : List Cell → List Cell
  | [] => []
  | none :: rest => none :: cumsumGo acc rest
  | some x :: rest => some (acc + x) :: cumsumGo (acc + x) rest

/-- Entry point of `Series.cumsum()`. -/
def cumsum (s : List Cell) : List Cell :=
  cumsumGo 0 s

/-- `Series.ewm(span=m, adjust=False).mean()` with smoothing
`α = 2/(m+1)`: seeded by the first defined value, then
`y = (1-α)·y + α·x`; at an undefined input the running mean is emitted
unchanged (and nothing is emitted before the seed). -/
def ewmSpanGo (α : ℚ) : Option ℚ → List Cell → List Cell
  | _, [] => []
  | none, none :: rest => none :: ewmSpanGo α none rest
  | some m, none :: rest => some m :: ewmSpanGo α (some m) rest
  | none, some x :: rest => some x :: ewmSpanGo α (some x) rest
  | some m, some x :: rest =>
    let m' := (1 - α) * m + α * x
    some m' :: ewmSpanGo α (some m') rest

/-- Entry point of `Series.ewm(span=m, adjust=False).mean()`. -/
def ewmSpan (m : ℕ) (s : List Cell) : List Cell :=
  ewmSpanGo (2 / (m + 1 : ℚ)) none s

/-- `Series.ewm(alpha=α).mean()` with the default `adjust=True` and
`ignore_na=False`: a weighted mean with weights `(1-α)^(i-j)` over the
defined entries, carried as a numerator/denominator pair. -/
def ewmAlphaGo (α : ℚ) : ℚ → ℚ → List Cell → List Cell
  | _, _, [] => []
  | num, den, c :: rest =>
    let num' := (1 - α) * num + (match c with | some x => x | none => 0)
    let den' := (1 - α) * den + (match c with | some _ => 1 | none => 0)
    (if den' = 0 then none else some (num' / den')) :: ewmAlphaGo α num' den' rest

/-- Entry point of `Series.ewm(alpha=α).mean()`. -/
def ewmAlpha (α : ℚ) (s : List Cell) : List Cell :=
  ewmAlphaGo α 0 0 s

/- ----------------------------------------------------------------------
   RSI (identical lines in sniper.py 56-61, smart_money.py 54-59,
   smart_sniper.py 38-43)
   ---------------------------------------------------------------------- -/

/-- `delta.where(delta > 0, 0)`: keep a positive delta, replace a
non-positive one by 0, keep `NaN` undefined. -/
def wherePos : Cell → Cell
  | some d => some (if 0 < d then d else 0)
  | none => none

/-- `-delta.where(delta < 0, 0)`: the magnitude of a negative delta,
0 otherwise, `NaN` kept undefined. -/
def whereNeg : Cell → Cell
  | some d => some (if d < 0 then -d else 0)
  | none => none

/-- `gain = (delta.where(delta > 0, 0)).rolling(period).mean()` over the
close-to-close deltas. -/
def gainSeries (period : ℕ) (close : List Cell) : List Cell :=
  rollingMean period ((diffS close).map wherePos)

/-- `loss = (-delta.where(delta < 0, 0)).rolling(period).mean()`. -/
def lossSeries (period : ℕ) (close : List Cell) : List Cell :=
  rollingMean period ((diffS close).map whereNeg)

/-- One RSI entry from its gain and loss entries:
`rs = gain / loss; rsi = 100 - 100 / (1 + rs)` evaluated in float
semantics — with a zero loss and a positive gain, `rs` is `+inf` and the
expression collapses to exactly 100 (saturation); with both zero it is
`0/0 = NaN`, i.e. undefined. -/
def rsiCell : Cell → Cell → Cell
  | some g, some l =>
    if l = 0 then (if g = 0 then none else some 100)
    else some (100 - 100 / (1 + g / l))
  | _, _ => none

/-- The RSI column: `data['rsi'] = 100 - (100 / (1 + rs))`, aligned with
the close series. -/
def rsiSeries (period : ℕ) (close : List Cell) : List Cell :=
  seriesOfFn close.length (fun i =>
    rsiCell (getC (gainSeries period close) i) (getC (lossSeries period close) i))

/- ----------------------------------------------------------------------
   Frames (pandas DataFrames) and signals
   ---------------------------------------------------------------------- -/

/-- The strategy-level exception: in the analyzers the only operations that
can raise are column reads on a frame lacking that column (`KeyError`). -/
inductive AErr where
  | keyError (column : String)
  deriving DecidableEq, Repr

/-- A pandas DataFrame: named, index-aligned columns and a row count
(`len(data)`).  In a well-formed frame every column has `nrows` cells. -/
structure Frame where
  cols : List (String × List Cell)
  nrows : ℕ
  deriving DecidableEq, Repr

/-- `data[name]`: the column, or `KeyError`. -/
def Frame.getCol (df : Frame) (name : String) : Except AErr (List Cell) :=
  match df.cols.lookup name with
  | some col => .ok col
  | none => .error (.keyError name)

/-- `data[name] = col`: replace the column if present, else append it. -/
def Frame.setCol (df : Frame) (name : String) (col : List Cell) : Frame :=
  if (df.cols.lookup name).isSome then
    { df with cols := df.cols.map (fun p => if p.1 = name then (name, col) else p) }
  else
    { df with cols := df.cols ++ [(name, col)] }

/-- Read one cell of a named column (a `row[name]` access after
`row = data.iloc[i]`; the `KeyError` surfaces at this access). -/
def Frame.cell (df : Frame) (name : String) (i : ℕ) : Except AErr Cell :=
  (df.getCol name).map (fun col => getC col i)

/-- `TradeAction` (config/constants.py) restricted to the two values the
strategies emit. -/
inductive TradeAction where
  | buy
  | sell
  deriving DecidableEq, Repr

/-- The signal dict every strategy returns
(`{'action', 'symbol', 'timeframe', 'price', 'stop_loss', 'take_profit',
'comment'}`); price fields are float cells. -/
structure Signal where
  action : TradeAction
  symbol : String
  timeframe : ℕ
  price : Cell
  stop_loss : Cell
  take_profit : Cell
  comment : String
  deriving DecidableEq, Repr

/- ----------------------------------------------------------------------
   Smart Money strategy (src/core/strategies/smart_money.py)
   ---------------------------------------------------------------------- -/

/-- Row-wise minimum that skips undefined entries
(`data[['open','close']].min(axis=1)`). -/
def cminSkip (a b : Cell) : Cell :=
  match a, b with
  | some x, some y => some (min x y)
  | some x, none => some x
  | none, y => y

/-- Constructor parameters of `SmartMoneyStrategy` that its indicator and
signal logic reads (defaults: 50/20/14/14/20, threshold 2.0, factor 1.5). -/
structure SmartMoneyCfg where
  name : String
  sma_period : ℕ
  ema_period : ℕ
  rsi_period : ℕ
  atr_period : ℕ
  volume_ma_period : ℕ
  pinbarThreshold : ℚ
  engulfingFactor : ℚ
  deriving DecidableEq, Repr

/-- True Range series (identical in smart_money.py 62-65, sniper.py 70-73,
smart_sniper.py 46-49): the row-wise, `NaN`-skipping maximum of
`high - low`, `|high - prev_close|`, `|low - prev_close|`; at index 0 the
two shifted terms are undefined and the maximum is `high - low`. -/
def trueRange (high low close : List Cell) : List Cell :=
  seriesOfFn high.length (fun i =>
    let pc := if i = 0 then none else getC close (i - 1)
    cmaxSkip (csub (getC high i) (getC low i))
      (cmaxSkip (cabs (csub (getC high i) pc)) (cabs (csub (getC low i) pc))))

/-- Pin-bar flag of one bar (smart_money.py 79-83):
`((upper_shadow / body > threshold) | (lower_shadow / body > threshold))
& (body_size > 0)`.  With a zero body, float arithmetic gives `inf > t`
(true) or `0/0 = NaN > t` (false) for the quotients, but the `& body > 0`
conjunct forces the flag to `False` either way, which is also what the
zero-divisor case of `cdiv` yields — no division error is possible. -/
def pinbarCell (threshold : ℚ) (upper lower body : Cell) : Cell :=
  boolCell ((cellGtq (cdiv upper body) threshold ||
             cellGtq (cdiv lower body) threshold) && cellGtq body 0)

/-- Engulfing flag of one bar (smart_money.py 86-97): current body exceeds
the previous body times the configured factor, and the candle straddles the
previous one in the opposite direction (bullish or bearish case). -/
def engulfingCell (factor : ℚ) (body prevBody close openc prevClose prevOpen : Cell) : Cell :=
  boolCell (cellLt (cmul prevBody (some factor)) body &&
    ((cellLt openc close && cellLt prevOpen close && cellLt openc prevClose) ||
     (cellLt close openc && cellLt close prevOpen && cellLt prevClose openc)))

/-- `SmartMoneyStrategy.calculate_indicators`, the `try` body: adds the
columns `sma`, `ema`, `rsi`, `atr`, `volume_ma`, `volume_ratio`,
`body_size`, `upper_shadow`, `lower_shadow`, `total_shadow`, `is_pinbar`,
`is_engulfing` in source order. -/
def smartMoneyCalcBody (cfg : SmartMoneyCfg) (df : Frame) : Except AErr Frame := do
  let close ← df.getCol "close"
  let df := df.setCol "sma" (rollingMean cfg.sma_period close)
  let df := df.setCol "ema" (ewmSpan cfg.ema_period close)
  let df := df.setCol "rsi" (rsiSeries cfg.rsi_period close)
  let high ← df.getCol "high"
  let low ← df.getCol "low"
  let df := df.setCol "atr" (rollingMean cfg.atr_period (trueRange high low close))
  let vol ← df.getCol "real_volume"
  let volume_ma := rollingMean cfg.volume_ma_period vol
  let df := df.setCol "volume_ma" volume_ma
  let df := df.setCol "volume_ratio"
    (seriesOfFn vol.length (fun i => cdiv (getC vol i) (getC volume_ma i)))
  let opcol ← df.getCol "open"
  let body := seriesOfFn close.length (fun i => cabs (csub (getC close i) (getC opcol i)))
  let df := df.setCol "body_size" body
  let upper := seriesOfFn high.length (fun i =>
    csub (getC high i) (cmaxSkip (getC opcol i) (getC close i)))
  let lower := seriesOfFn low.length (fun i =>
    csub (cminSkip (getC opcol i) (getC close i)) (getC low i))
  let df := df.setCol "upper_shadow" upper
  let df := df.setCol "lower_shadow" lower
  let df := df.setCol "total_shadow"
    (seriesOfFn upper.length (fun i => cadd (getC upper i) (getC lower i)))
  let df := df.setCol "is_pinbar" (seriesOfFn close.length (fun i =>
    pinbarCell cfg.pinbarThreshold (getC upper i) (getC lower i) (getC body i)))
  let df := df.setCol "is_engulfing" (seriesOfFn close.length (fun i =>
    engulfingCell cfg.engulfingFactor (getC body i)
      (if i = 0 then none else getC body (i - 1))
      (getC close i) (getC opcol i)
      (if i = 0 then none else getC close (i - 1))
      (if i = 0 then none else getC opcol (i - 1))))
  pure df

/-- `SmartMoneyStrategy.calculate_indicators`: the whole body sits in a
`try` whose handler logs and returns the frame.  (In Python the columns
added before the failing statement survive; no theorem below depends on
that partially-updated frame, so the handler result is modelled as the
input frame.) -/
def smartMoneyCalculateIndicators (cfg : SmartMoneyCfg) (df : Frame) : Frame :=
  match smartMoneyCalcBody cfg df with
  | .ok df' => df'
  | .error _ => df

/-- Everything `SmartMoneyStrategy.analyze` reads from the frame before
branching: the last and previous rows, the 20-bar rolling support and
resistance, and the last row's indicator and pattern cells. -/
structure SMCtx where
  lastClose : Cell
  lastOpen : Cell
  lastHigh : Cell
  lastLow : Cell
  prevClose : Cell
  prevOpen : Cell
  sma : Cell
  ema : Cell
  rsi : Cell
  atr : Cell
  volumeFactor : Cell
  isPinbar : Cell
  isEngulfing : Cell
  upperShadow : Cell
  lowerShadow : Cell
  support : Cell
  resistance : Cell
  deriving DecidableEq, Repr

/-- The reads of `SmartMoneyStrategy.analyze` (lines 119-135 and the cells
its conditions touch), collected up front.  Python evaluates some of these
lazily behind short-circuiting `and`/`or`, but a produced signal needs all
of them defined-or-present, and every other outcome is `None` whether a
read raised or a condition was false, so collecting the reads eagerly is
observationally equivalent for the returned value. -/
def smartMoneyCtx (df : Frame) : Except AErr SMCtx := do
  let li := df.nrows - 1
  let pi := df.nrows - 2
  let low ← df.getCol "low"
  let high ← df.getCol "high"
  let close ← df.getCol "close"
  let opcol ← df.getCol "open"
  let sma ← df.cell "sma" li
  let ema ← df.cell "ema" li
  let rsi ← df.cell "rsi" li
  let atr ← df.cell "atr" li
  let volumeFactor ← df.cell "volume_ratio" li
  let isPinbar ← df.cell "is_pinbar" li
  let isEngulfing ← df.cell "is_engulfing" li
  let upperShadow ← df.cell "upper_shadow" li
  let lowerShadow ← df.cell "lower_shadow" li
  pure {
    lastClose := getC close li
    lastOpen := getC opcol li
    lastHigh := getC high li
    lastLow := getC low li
    prevClose := getC close pi
    prevOpen := getC opcol pi
    sma, ema, rsi, atr, volumeFactor, isPinbar, isEngulfing
    upperShadow, lowerShadow
    support := getC (rollingMin 20 low) li
    resistance := getC (rollingMax 20 high) li }

/-- `buy_signal` of `SmartMoneyStrategy.analyze` (lines 127-148). -/
def smartMoneyBuyCond (c : SMCtx) : Bool :=
  let trendUp := cellLt c.ema c.lastClose && cellLt c.sma c.ema
  let nearSupport := cellLt (cabs (csub c.lastLow c.support)) (cscale 2 c.atr)
  let highVolume := cellGtq c.volumeFactor (3/2)
  let pattern :=
    (cellTruthy c.isPinbar && cellLt c.upperShadow c.lowerShadow) ||
    (cellTruthy c.isEngulfing && cellLt c.lastOpen c.lastClose) ||
    (cellLt c.lastOpen c.lastClose && cellLt c.prevClose c.prevOpen &&
      cellLt (cdivq (cadd c.prevOpen c.prevClose) 2) c.lastClose)
  (trendUp || nearSupport) && highVolume && pattern &&
    (cellGtq c.rsi 30 && cellLtq c.rsi 70)

/-- `sell_signal` of `SmartMoneyStrategy.analyze` (lines 128-161). -/
def smartMoneySellCond (c : SMCtx) : Bool :=
  let trendDown := cellLt c.lastClose c.ema && cellLt c.ema c.sma
  let nearResistance := cellLt (cabs (csub c.lastHigh c.resistance)) (cscale 2 c.atr)
  let highVolume := cellGtq c.volumeFactor (3/2)
  let pattern :=
    (cellTruthy c.isPinbar && cellLt c.lowerShadow c.upperShadow) ||
    (cellTruthy c.isEngulfing && cellLt c.lastClose c.lastOpen) ||
    (cellLt c.lastClose c.lastOpen && cellLt c.prevOpen c.prevClose &&
      cellLt c.lastClose (cdivq (cadd c.prevOpen c.prevClose) 2))
  (trendDown || nearResistance) && highVolume && pattern &&
    (cellGtq c.rsi 30 && cellLtq c.rsi 70)

/-- `SmartMoneyStrategy._get_pattern_name`. -/
def smartMoneyPatternName (c : SMCtx) : String :=
  if cellTruthy c.isPinbar then
    if cellLt c.upperShadow c.lowerShadow then "Бычий пин-бар" else "Медвежий пин-бар"
  else if cellTruthy c.isEngulfing then
    if cellLt c.lastOpen c.lastClose then "Бычье поглощение" else "Медвежье поглощение"
  else if cellLt c.lastOpen c.lastClose then "Бычья свеча"
  else "Медвежья свеча"

/-- The `try` body of `SmartMoneyStrategy.analyze`: gather the reads,
then `if buy_signal: … BUY; if sell_signal: … SELL; return None`.  The
buy branch is checked first. -/
def smartMoneyAnalyzeBody (cfg : SmartMoneyCfg) (symbol : String) (timeframe : ℕ)
    (df : Frame) : Except AErr (Option Signal) := do
  let c ← smartMoneyCtx df
  if smartMoneyBuyCond c then
    pure (some {
      action := .buy
      symbol, timeframe
      price := c.lastClose
      stop_loss := csub (cmin c.lastLow c.support) (cscale 2 c.atr)
      take_profit := cadd c.lastClose (cscale 4 c.atr)
      comment := "Стратегия: " ++ cfg.name ++ ", Паттерн: " ++ smartMoneyPatternName c })
  else if smartMoneySellCond c then
    pure (some {
      action := .sell
      symbol, timeframe
      price := c.lastClose
      stop_loss := cadd (cmax c.lastHigh c.resistance) (cscale 2 c.atr)
      take_profit := csub c.lastClose (cscale 4 c.atr)
      comment := "Стратегия: " ++ cfg.name ++ ", Паттерн: " ++ smartMoneyPatternName c })
  else
    pure none

/-- `SmartMoneyStrategy.get_required_history_size`. -/
def smartMoneyRequiredHistorySize (cfg : SmartMoneyCfg) : ℕ :=
  max (max (max (max (max cfg.sma_period cfg.ema_period) cfg.rsi_period)
    cfg.atr_period) cfg.volume_ma_period) 20 + 50

/-- `SmartMoneyStrategy.analyze`: disabled or short histories give `None`
without side effects; any exception in the body is caught by the
`except` handler, logged, and converted to `None`. -/
def smartMoneyAnalyze (enabled : Bool) (cfg : SmartMoneyCfg) (symbol : String)
    (timeframe : ℕ) (df : Frame) : Option Signal :=
  if !enabled then none
  else if df.nrows < smartMoneyRequiredHistorySize cfg then none
  else
    match smartMoneyAnalyzeBody cfg symbol timeframe df with
    | .ok r => r
    | .error _ => none

/- ----------------------------------------------------------------------
   Sniper strategy (src/core/strategies/sniper.py)
   ---------------------------------------------------------------------- -/

/-- Constructor parameters of `SniperStrategy` (defaults 10/20/14/14/3/
14/14/12/26/9/3). -/
structure SniperCfg where
  name : String
  sma_fast_period : ℕ
  sma_slow_period : ℕ
  rsi_period : ℕ
  stoch_k_period : ℕ
  stoch_d_period : ℕ
  atr_period : ℕ
  adx_period : ℕ
  macd_fast : ℕ
  macd_slow : ℕ
  macd_signal : ℕ
  stoch_slowing : ℕ
  deriving DecidableEq, Repr

/-- The cells `SniperStrategy.analyze` reads from the last and previous
rows (lines 113-137).  As with Smart Money, the reads are collected up
front; short-circuiting only changes which reads are skipped on paths
whose outcome is `None` anyway. -/
structure SniperCtx where
  smaFast : Cell
  smaSlow : Cell
  lastClose : Cell
  adx : Cell
  realVolume : Cell
  volumeMa : Cell
  stochK : Cell
  stochD : Cell
  prevStochK : Cell
  prevStochD : Cell
  macdHist : Cell
  prevMacdHist : Cell
  lastLow : Cell
  lastHigh : Cell
  atr : Cell
  deriving DecidableEq, Repr

/-- The frame reads of `SniperStrategy.analyze`. -/
def sniperCtx (df : Frame) : Except AErr SniperCtx := do
  let li := df.nrows - 1
  let pi := df.nrows - 2
  let smaFast ← df.cell "sma_fast" li
  let smaSlow ← df.cell "sma_slow" li
  let lastClose ← df.cell "close" li
  let adx ← df.cell "adx" li
  let realVolume ← df.cell "real_volume" li
  let volumeMa ← df.cell "volume_ma" li
  let stochK ← df.cell "stoch_k" li
  let stochD ← df.cell "stoch_d" li
  let prevStochK ← df.cell "stoch_k" pi
  let prevStochD ← df.cell "stoch_d" pi
  let macdHist ← df.cell "macd_hist" li
  let prevMacdHist ← df.cell "macd_hist" pi
  let lastLow ← df.cell "low" li
  let lastHigh ← df.cell "high" li
  let atr ← df.cell "atr" li
  pure { smaFast, smaSlow, lastClose, adx, realVolume, volumeMa,
         stochK, stochD, prevStochK, prevStochD, macdHist, prevMacdHist,
         lastLow, lastHigh, atr }

/-- `buy_signal` of `SniperStrategy.analyze` (lines 116-129): up-trend
(fast SMA above slow SMA and close above slow SMA), ADX above 25, volume
above its moving average, a fresh upward Stochastic crossover, and a
positive, expanding MACD histogram. -/
def sniperBuyCond (c : SniperCtx) : Bool :=
  (cellLt c.smaSlow c.smaFast && cellLt c.smaSlow c.lastClose) &&
  cellGtq c.adx 25 &&
  cellLt c.volumeMa c.realVolume &&
  (cellLt c.stochD c.stochK && cellLt c.prevStochK c.prevStochD) &&
  (cellGtq c.macdHist 0 && cellLt c.prevMacdHist c.macdHist)

/-- `sell_signal` of `SniperStrategy.analyze` (lines 117-138), the mirror
image of the buy condition. -/
def sniperSellCond (c : SniperCtx) : Bool :=
  (cellLt c.smaFast c.smaSlow && cellLt c.lastClose c.smaSlow) &&
  cellGtq c.adx 25 &&
  cellLt c.volumeMa c.realVolume &&
  (cellLt c.stochK c.stochD && cellLt c.prevStochD c.prevStochK) &&
  (cellLtq c.macdHist 0 && cellLt c.macdHist c.prevMacdHist)

/-- The `try` body of `SniperStrategy.analyze`: buy branch first,
`stop_loss = low - 2*ATR`, `take_profit = close + 3*ATR` (mirrored for
sell). -/
def sniperAnalyzeBody (cfg : SniperCfg) (symbol : String) (timeframe : ℕ)
    (df : Frame) : Except AErr (Option Signal) := do
  let c ← sniperCtx df
  if sniperBuyCond c then
    pure (some {
      action := .buy
      symbol, timeframe
      price := c.lastClose
      stop_loss := csub c.lastLow (cscale 2 c.atr)
      take_profit := cadd c.lastClose (cscale 3 c.atr)
      comment := "Стратегия: " ++ cfg.name })
  else if sniperSellCond c then
    pure (some {
      action := .sell
      symbol, timeframe
      price := c.lastClose
      stop_loss := cadd c.lastHigh (cscale 2 c.atr)
      take_profit := csub c.lastClose (cscale 3 c.atr)
      comment := "Стратегия: " ++ cfg.name })
  else
    pure none

/-- `SniperStrategy.get_required_history_size`. -/
def sniperRequiredHistorySize (cfg : SniperCfg) : ℕ :=
  max (max (max (max (max cfg.sma_slow_period cfg.rsi_period)
    (cfg.stoch_k_period + cfg.stoch_d_period + cfg.stoch_slowing))
    cfg.atr_period) (cfg.adx_period * 2)) (cfg.macd_slow + cfg.macd_signal) + 50

/-- `SniperStrategy.analyze`: disabled or short histories give `None`;
every exception in the body is caught, logged and converted to `None`. -/
def sniperAnalyze (enabled : Bool) (cfg : SniperCfg) (symbol : String)
    (timeframe : ℕ) (df : Frame) : Option Signal :=
  if !enabled then none
  else if df.nrows < sniperRequiredHistorySize cfg then none
  else
    match sniperAnalyzeBody cfg symbol timeframe df with
    | .ok r => r
    | .error _ => none

/- ----------------------------------------------------------------------
   Smart Sniper strategy (src/core/strategies/smart_sniper.py)
   ---------------------------------------------------------------------- -/

/-- `plus_dm[(plus_dm <= 0) | (plus_dm < other)] = 0`: a boolean-mask
assignment.  Undefined entries survive (a `NaN` satisfies neither
comparison, so it is not overwritten); the comparison against an undefined
`other` is `False`. -/
def dmMask (dm other : Cell) : Cell :=
  match dm with
  | none => none
  | some a =>
    if decide (a ≤ 0) || (match other with | some b => decide (a < b) | none => false) then some 0
    else some a

/-- `SmartSniperStrategy.calculate_indicators`.  There is no `try` here:
a missing input column raises out of the method.  Column order follows the
source: VWAP, SMAs, RSI, ATR, Stochastic, ADX, MACD, volume.  Note the
sequencing subtlety of the ADX mask: `minus_dm` is masked against the
*already masked* `plus_dm`. -/
def smartSniperCalculateIndicators (df : Frame) : Except AErr Frame := do
  let high ← df.getCol "high"
  let low ← df.getCol "low"
  let close ← df.getCol "close"
  let typical := seriesOfFn high.length (fun i =>
    cdivq (cadd (cadd (getC high i) (getC low i)) (getC close i)) 3)
  let df := df.setCol "typical_price" typical
  let vol ← df.getCol "real_volume"
  let cumVol := cumsum vol
  let df := df.setCol "cumulative_volume" cumVol
  let cumTyp := cumsum (seriesOfFn typical.length (fun i =>
    cmul (getC typical i) (getC vol i)))
  let df := df.setCol "cumulative_typical" cumTyp
  let df := df.setCol "vwap" (seriesOfFn cumTyp.length (fun i =>
    cdiv (getC cumTyp i) (getC cumVol i)))
  let df := df.setCol "sma_fast" (rollingMean 5 close)
  let df := df.setCol "sma_slow" (rollingMean 20 close)
  let df := df.setCol "rsi" (rsiSeries 14 close)
  let tr := trueRange high low close
  let df := df.setCol "atr" (rollingMean 14 tr)
  let lowMin := rollingMin 5 low
  let highMax := rollingMax 5 high
  let stochK := seriesOfFn close.length (fun i =>
    cscale 100 (cdiv (csub (getC close i) (getC lowMin i))
      (csub (getC highMax i) (getC lowMin i))))
  let df := df.setCol "stoch_k" stochK
  let df := df.setCol "stoch_d" (rollingMean 3 stochK)
  let plusDmRaw := diffS high
  let minusDmRaw := seriesOfFn low.length (fun i => cscale (-1) (getC (diffS low) i))
  let plusDm := seriesOfFn plusDmRaw.length (fun i =>
    dmMask (getC plusDmRaw i) (getC minusDmRaw i))
  let minusDm := seriesOfFn minusDmRaw.length (fun i =>
    dmMask (getC minusDmRaw i) (getC plusDm i))
  let trEwm := ewmAlpha (1/14) tr
  let plusDi := seriesOfFn high.length (fun i =>
    cscale 100 (cdiv (getC (ewmAlpha (1/14) plusDm) i) (getC trEwm i)))
  let minusDi := seriesOfFn high.length (fun i =>
    cscale 100 (cdiv (getC (ewmAlpha (1/14) minusDm) i) (getC trEwm i)))
  let df := df.setCol "adx" (seriesOfFn high.length (fun i =>
    cscale 100 (getC (ewmAlpha (1/14) (seriesOfFn high.length (fun j =>
      cabs (cdiv (csub (getC plusDi j) (getC minusDi j))
        (cadd (getC plusDi j) (getC minusDi j)))))) i)))
  let exp1 := ewmSpan 12 close
  let exp2 := ewmSpan 26 close
  let macd := seriesOfFn close.length (fun i => csub (getC exp1 i) (getC exp2 i))
  let df := df.setCol "macd" macd
  let macdSignal := ewmSpan 9 macd
  let df := df.setCol "macd_signal" macdSignal
  let df := df.setCol "macd_hist" (seriesOfFn macd.length (fun i =>
    csub (getC macd i) (getC macdSignal i)))
  let volumeMa := rollingMean 20 vol
  let df := df.setCol "volume_ma" volumeMa
  let df := df.setCol "volume_ratio" (seriesOfFn vol.length (fun i =>
    cdiv (getC vol i) (getC volumeMa i)))
  pure df

/-- The cells `SmartSniperStrategy.analyze` reads after recomputing the
indicators. -/
structure SmartSniperCtx where
  lastClose : Cell
  vwap : Cell
  smaFast : Cell
  smaSlow : Cell
  adx : Cell
  volumeFactor : Cell
  rsi : Cell
  stochK : Cell
  stochD : Cell
  prevStochK : Cell
  prevStochD : Cell
  macdHist : Cell
  prevMacdHist : Cell
  lastLow : Cell
  lastHigh : Cell
  atr : Cell
  deriving DecidableEq, Repr

/-- The frame reads of `SmartSniperStrategy.analyze` (lines 92-126). -/
def smartSniperCtx (df : Frame) : Except AErr SmartSniperCtx := do
  let li := df.nrows - 1
  let pi := df.nrows - 2
  let lastClose ← df.cell "close" li
  let vwap ← df.cell "vwap" li
  let smaFast ← df.cell "sma_fast" li
  let smaSlow ← df.cell "sma_slow" li
  let adx ← df.cell "adx" li
  let volumeFactor ← df.cell "volume_ratio" li
  let rsi ← df.cell "rsi" li
  let stochK ← df.cell "stoch_k" li
  let stochD ← df.cell "stoch_d" li
  let prevStochK ← df.cell "stoch_k" pi
  let prevStochD ← df.cell "stoch_d" pi
  let macdHist ← df.cell "macd_hist" li
  let prevMacdHist ← df.cell "macd_hist" pi
  let lastLow ← df.cell "low" li
  let lastHigh ← df.cell "high" li
  let atr ← df.cell "atr" li
  pure { lastClose, vwap, smaFast, smaSlow, adx, volumeFactor, rsi,
         stochK, stochD, prevStochK, prevStochD, macdHist, prevMacdHist,
         lastLow, lastHigh, atr }

/-- `buy_signal` of `SmartSniperStrategy.analyze` (lines 96-116): the
momentum conditions plus price above VWAP and an RSI band (50, 70). -/
def smartSniperBuyCond (c : SmartSniperCtx) : Bool :=
  (cellLt c.smaSlow c.smaFast && cellLt c.vwap c.lastClose) &&
  cellGtq c.adx 25 &&
  cellGtq c.volumeFactor (3/2) &&
  (cellGtq c.rsi 50 && cellLtq c.rsi 70) &&
  (cellLt c.stochD c.stochK && cellLt c.prevStochK c.prevStochD) &&
  (cellGtq c.macdHist 0 && cellLt c.prevMacdHist c.macdHist)

/-- `sell_signal` of `SmartSniperStrategy.analyze` (lines 97-126). -/
def smartSniperSellCond (c : SmartSniperCtx) : Bool :=
  (cellLt c.smaFast c.smaSlow && cellLt c.lastClose c.vwap) &&
  cellGtq c.adx 25 &&
  cellGtq c.volumeFactor (3/2) &&
  (cellLtq c.rsi 50 && cellGtq c.rsi 30) &&
  (cellLt c.stochK c.stochD && cellLt c.prevStochD c.prevStochK) &&
  (cellLtq c.macdHist 0 && cellLt c.macdHist c.prevMacdHist)

/-- `SmartSniperStrategy.analyze`.  Unlike the other two strategies there
is no `try`/`except` around the body: the indicator recomputation and the
frame reads raise straight through to the caller, so the result type keeps
the `Except` effect.  The strategy name is fixed by its constructor. -/
def smartSniperAnalyze (enabled : Bool) (symbol : String) (timeframe : ℕ)
    (df : Frame) : Except AErr (Option Signal) := do
  if !enabled then pure none
  else if df.nrows < 100 then pure none
  else
    let df ← smartSniperCalculateIndicators df
    let c ← smartSniperCtx df
    if smartSniperBuyCond c then
      pure (some {
        action := .buy
        symbol, timeframe
        price := c.lastClose
        stop_loss := csub (cmin c.lastLow c.vwap) (cscale 2 c.atr)
        take_profit := cadd c.lastClose (cscale 3 c.atr)
        comment := "Стратегия: Смарт Снайпер, Таймфрейм: " ++ toString timeframe })
    else if smartSniperSellCond c then
      pure (some {
        action := .sell
        symbol, timeframe
        price := c.lastClose
        stop_loss := cadd (cmax c.lastHigh c.vwap) (cscale 2 c.atr)
        take_profit := csub c.lastClose (cscale 3 c.atr)
        comment := "Стратегия: Смарт Снайпер, Таймфрейм: " ++ toString timeframe })
    else
      pure none

/- ----------------------------------------------------------------------
   Base strategy enable/disable (src/core/strategies/base.py 153-165)
   ---------------------------------------------------------------------- -/

/-- The strategy-owned toggle state (`self.enabled`, initialised `False`). -/
structure StrategyFlags where
  enabled : Bool
  deriving DecidableEq, Repr

/-- `BaseStrategy.enable`: bail out (warning only, no state change) when the
client is not connected, else set `enabled = True`.  The client's
connection flag at call time is the argument. -/
def strategyEnable (client_connected : Bool) (st : StrategyFlags) : StrategyFlags :=
  if !client_connected then st
  else { st with enabled := true }

/-- `BaseStrategy.disable`: unconditionally clear the flag. -/
def strategyDisable (_st : StrategyFlags) : StrategyFlags :=
  { enabled := false }

/-- One toggle call, tagged with the client's connection state at the
moment of an `enable()` call. -/
inductive StrategyOp where
  | enableOp (client_connected : Bool)
  | disableOp
  deriving DecidableEq, Repr

/-- Apply one toggle call. -/
def applyStrategyOp (st : StrategyFlags) : StrategyOp → StrategyFlags
  | .enableOp c => strategyEnable c st
  | .disableOp => strategyDisable st

/-- A sequence of `enable`/`disable` calls against a strategy. -/
def runStrategyOps (ops : List StrategyOp) (st : StrategyFlags) : StrategyFlags :=
  ops.foldl applyStrategyOp st

/- ----------------------------------------------------------------------
   Concrete inputs used by the witnesses and counterexamples
   ---------------------------------------------------------------------- -/

/-- A risk-manager state whose daily loss limit has been established
(so `check_daily_limits` passes with zero profits): default risk
percentages, limit 100, stored day 0. -/
def readyRiskState : RiskManagerState :=
  { risk_per_trade := 1, risk_all_trades := 5, daily_risk := 10,
    daily_loss_limit := 100, daily_profit := 0, today := 0 }

/-- A symbol whose `volume_min` (0.1) is not a multiple of its
`volume_step` (0.3). -/
def stepSymbol : SymbolInfo :=
  { trade_tick_value := 1, volume_min := 1/10, volume_max := 10, volume_step := 3/10 }

/-- A conventional symbol: tick value 1, volumes 0.01..100 in steps
of 0.1. -/
def smoothSymbol : SymbolInfo :=
  { trade_tick_value := 1, volume_min := 1/100, volume_max := 100, volume_step := 1/10 }

/-- `SniperStrategy` with its constructor defaults. -/
def sniperDefaultCfg : SniperCfg :=
  { name := "Снайпер", sma_fast_period := 10, sma_slow_period := 20,
    rsi_period := 14, stoch_k_period := 14, stoch_d_period := 3,
    atr_period := 14, adx_period := 14, macd_fast := 12, macd_slow := 26,
    macd_signal := 9, stoch_slowing := 3 }

/-- A frame holding only a close column: long enough for the Sniper gate
(its default required history is 85) but missing every indicator column,
so the first read of `analyze` raises `KeyError('sma_fast')`. -/
def sniperBareFrame : Frame :=
  { cols := [("close", List.replicate 85 (some 1))], nrows := 85 }

/-- A frame holding only a close column, 100 rows: long enough for the
Smart Sniper gate, but `calculate_indicators` raises `KeyError('high')`
on its first statement. -/
def smartSniperBareFrame : Frame :=
  { cols := [("close", List.replicate 100 (some 1))], nrows := 100 }

/-- `SmartMoneyStrategy` instantiated with period 2 for every constructor
period (all positive, hence accepted by `BaseStrategy.__init__`) and the
default pin-bar threshold 2.0 and engulfing factor 1.5; its required
history is then `max(…, 20) + 50 = 70` bars. -/
def smCfg : SmartMoneyCfg :=
  { name := "Смарт Мани", sma_period := 2, ema_period := 2, rsi_period := 2,
    atr_period := 2, volume_ma_period := 2,
    pinbarThreshold := 2, engulfingFactor := 3/2 }

/-- A column of 70 cells: 67 identical bars, then three crafted ones. -/
def smCol (base a b c : ℚ) : List Cell :=
  List.replicate 67 (some base) ++ [some a, some b, some c]

/-- 70 OHLCV bars on which the last bar is simultaneously a bullish
pin-bar (long lower shadow, near the rolling support) and a bearish
engulfing candle (near the rolling resistance), with qualifying volume and
mid-band RSI — so the Smart Money BUY and SELL conditions are both true on
the final bar. -/
def smBothFrame : Frame :=
  { cols := [
      ("open", smCol 100 100 100 101),
      ("high", smCol 101 101 101 102),
      ("low", smCol 99 94 94 85),
      ("close", smCol 100 95 99 96),
      ("real_volume", smCol 2 2 2 10)],
    nrows := 70 }

/-- `smBothFrame` after `SmartMoneyStrategy.calculate_indicators`. -/
def smBothEnriched : Frame :=
  smartMoneyCalculateIndicators smCfg smBothFrame

/-- A three-bar strictly rising close series: its 2-period average loss on
the last bar is zero while the average gain is positive, exercising the
RSI saturation branch. -/
def risingClose : List Cell :=
  [some 100, some 101, some 103]

/-- The sizing result of the documented scenario (equity 10000, risk 1%,
stop 50 points, tick value 1 against `smoothSymbol`). -/
def c7Result : PositionSizeResult :=
  { volume := 2, risk_amount := 100, risk_percent := 1, stop_loss_pips := 50 }

/- ----------------------------------------------------------------------
   Helper lemmas
   ---------------------------------------------------------------------- -/

theorem qtrunc_eq_floor {q : ℚ} (h : 0 ≤ q) : qtrunc q = ⌊q⌋ := by
  simp [qtrunc, h]

theorem validateRiskParameters_ok_elim {r a d : ℚ} {u : Unit}
    (h : validateRiskParameters r a d = .ok u) :
    0 < r ∧ r ≤ 100 ∧ 0 < a ∧ a ≤ 100 ∧ 0 < d ∧ d ≤ 100 ∧ r ≤ a ∧ a ≤ d := by
  unfold validateRiskParameters at h
  by_cases h1 : (0 < r ∧ r ≤ 100 ∧ 0 < a ∧ a ≤ 100 ∧ 0 < d ∧ d ≤ 100)
  · rw [if_neg (not_not_intro h1)] at h
    by_cases h2 : r > a
    · rw [if_pos h2] at h
      exact absurd h (by simp)
    · rw [if_neg h2] at h
      by_cases h3 : a > d
      · rw [if_pos h3] at h
        exact absurd h (by simp)
      · exact ⟨h1.1, h1.2.1, h1.2.2.1, h1.2.2.2.1, h1.2.2.2.2.1, h1.2.2.2.2.2,
          not_lt.1 h2, not_lt.1 h3⟩
  · rw [if_pos h1] at h
    exact absurd h (by simp)

theorem validateRiskParameters_reject {r a d : ℚ}
    (h : ¬ (0 < r ∧ r ≤ 100 ∧ 0 < a ∧ a ≤ 100 ∧ 0 < d ∧ d ≤ 100 ∧ r ≤ a ∧ a ≤ d)) :
    validateRiskParameters r a d = .error .validation := by
  unfold validateRiskParameters
  by_cases h1 : (0 < r ∧ r ≤ 100 ∧ 0 < a ∧ a ≤ 100 ∧ 0 < d ∧ d ≤ 100)
  · rw [if_neg (not_not_intro h1)]
    by_cases h2 : r > a
    · rw [if_pos h2]
    · rw [if_neg h2]
      by_cases h3 : a > d
      · rw [if_pos h3]
      · exact absurd ⟨h1.1, h1.2.1, h1.2.2.1, h1.2.2.2.1, h1.2.2.2.2.1, h1.2.2.2.2.2,
          not_lt.1 h2, not_lt.1 h3⟩ h
  · rw [if_pos h1]

theorem adjustVolume_ok_spec {v w : ℚ} {si : SymbolInfo}
    (hmin : 0 < si.volume_min) (hmm : si.volume_min ≤ si.volume_max)
    (hstep : 0 < si.volume_step)
    (h : adjustVolumeToConstraints v si = .ok w) :
    (∃ k : ℤ, w = k * si.volume_step) ∧ w ≤ si.volume_max ∧
      ((∃ m : ℤ, si.volume_min = m * si.volume_step) → si.volume_min ≤ w) := by
  unfold adjustVolumeToConstraints at h
  rw [if_neg (ne_of_gt hstep)] at h
  simp only [Except.ok.injEq] at h
  set clamped := max (min v si.volume_max) si.volume_min with hcl
  have hclpos : 0 < clamped := lt_of_lt_of_le hmin (le_max_right _ _)
  have hx : 0 ≤ clamped / si.volume_step := le_of_lt (div_pos hclpos hstep)
  rw [qtrunc_eq_floor hx] at h
  have hwle : w ≤ clamped := by
    rw [← h]
    calc (⌊clamped / si.volume_step⌋ : ℚ) * si.volume_step
        ≤ (clamped / si.volume_step) * si.volume_step :=
          mul_le_mul_of_nonneg_right (Int.floor_le _) hstep.le
      _ = clamped := div_mul_cancel₀ _ (ne_of_gt hstep)
  refine ⟨⟨⌊clamped / si.volume_step⌋, h.symm⟩, ?_, ?_⟩
  · exact le_trans hwle (max_le (min_le_right _ _) hmm)
  · rintro ⟨m, hm⟩
    have hmle : si.volume_min ≤ clamped := le_max_right _ _
    have hmx : (m : ℚ) ≤ clamped / si.volume_step := by
      rw [le_div_iff₀ hstep]
      calc (m : ℚ) * si.volume_step = si.volume_min := hm.symm
        _ ≤ clamped := hmle
    have hfloor : m ≤ ⌊clamped / si.volume_step⌋ := Int.le_floor.2 hmx
    calc si.volume_min = (m : ℚ) * si.volume_step := hm
      _ ≤ (⌊clamped / si.volume_step⌋ : ℚ) * si.volume_step :=
          mul_le_mul_of_nonneg_right (by exact_mod_cast hfloor) hstep.le
      _ = w := h

theorem cellLt_asymm {a b : Cell} (h1 : cellLt a b = true) (h2 : cellLt b a = true) : False := by
  cases a with
  | none => simp [cellLt] at h1
  | some x =>
    cases b with
    | none => simp [cellLt] at h1
    | some y =>
      simp only [cellLt, decide_eq_true_eq] at h1 h2
      exact absurd h2 (not_lt.2 h1.le)

theorem runStrategyOps_enabled_source (ops : List StrategyOp) :
    ∀ st, (runStrategyOps ops st).enabled = true →
      StrategyOp.enableOp true ∈ ops ∨ st.enabled = true := by
  induction ops with
  | nil => intro st h; exact Or.inr h
  | cons op rest ih =>
    intro st h
    have hstep := ih (applyStrategyOp st op) h
    rcases hstep with hmem | hen
    · exact Or.inl (List.mem_cons_of_mem _ hmem)
    · cases op with
      | enableOp c =>
        cases c with
        | true => exact Or.inl (List.mem_cons_self _ _)
        | false =>
          simp only [applyStrategyOp, strategyEnable] at hen
          exact Or.inr hen
      | disableOp =>
        simp only [applyStrategyOp, strategyDisable] at hen
        exact absurd hen (by simp)

theorem getC_seriesOfFn (n : ℕ) (f : ℕ → Cell) (i : ℕ) :
    getC (seriesOfFn n f) i = if i < n then f i else none := by
  unfold seriesOfFn getC
  by_cases h : i < n
  · rw [if_pos h, List.get?_map, List.get?_range h]
    rfl
  · rw [if_neg h, List.get?_eq_none.2 (by simpa using not_lt.1 h)]
    rfl

theorem getC_map {f : Cell → Cell} (hf : f none = none) (s : List Cell) (i : ℕ) :
    getC (s.map f) i = f (getC s i) := by
  unfold getC
  rw [List.get?_map]
  cases s.get? i with
  | none => simpa using hf.symm
  | some c => rfl

theorem allSome_mem {cs : List Cell} {vs : List ℚ} (h : allSome cs = some vs) :
    ∀ v ∈ vs, some v ∈ cs := by
  induction cs generalizing vs with
  | nil =>
    simp only [allSome, Option.some.injEq] at h
    subst h; intro v hv; cases hv
  | cons c rest ih =>
    cases c with
    | none => simp [allSome] at h
    | some x =>
      simp only [allSome, Option.map_eq_some'] at h
      obtain ⟨ws, hws, hvs⟩ := h
      subst hvs
      intro v hv
      rcases List.mem_cons.1 hv with hv | hv
      · subst hv; exact List.mem_cons_self _ _
      · exact List.mem_cons_of_mem _ (ih hws v hv)

theorem allSome_eq_none {cs : List Cell} (h : none ∈ cs) : allSome cs = none := by
  induction cs with
  | nil => cases h
  | cons c rest ih =>
    rcases List.mem_cons.1 h with hc | hc
    · rw [← hc]; rfl
    · cases c with
      | none => rfl
      | some x => simp [allSome, ih hc]

theorem cellWherePos_nonneg {c : Cell} {v : ℚ} (h : wherePos c = some v) : 0 ≤ v := by
  cases c with
  | none => simp [wherePos] at h
  | some d =>
    simp only [wherePos, Option.some.injEq] at h
    subst h
    split <;> [exact le_of_lt (by assumption); rfl]

theorem cellWhereNeg_nonneg {c : Cell} {v : ℚ} (h : whereNeg c = some v) : 0 ≤ v := by
  cases c with
  | none => simp [whereNeg] at h
  | some d =>
    simp only [whereNeg, Option.some.injEq] at h
    subst h
    split
    · next hd => linarith
    · rfl

theorem rollingMean_nonneg {n : ℕ} {s : List Cell}
    (hs : ∀ j v, getC s j = some v → 0 ≤ v) {i : ℕ} {g : ℚ}
    (h : getC (rollingMean n s) i = some g) : 0 ≤ g := by
  rw [rollingMean, getC_seriesOfFn] at h
  split at h
  · split at h
    · simp at h
    · simp only [Option.map_eq_some'] at h
      obtain ⟨vs, hvs, hg⟩ := h
      subst hg
      refine div_nonneg (List.sum_nonneg ?_) (by positivity)
      intro v hv
      have hmem := allSome_mem hvs v hv
      rcases List.mem_map.1 hmem with ⟨j, _, hj⟩
      exact hs _ _ hj
  · simp at h

theorem wherePos_none : wherePos none = none := rfl

theorem whereNeg_none : whereNeg none = none := rfl

theorem diffS_zero (close : List Cell) : getC (diffS close) 0 = none := by
  rw [diffS, getC_seriesOfFn]
  split <;> simp

theorem rollingMean_warmup {p : ℕ} (hp : 0 < p) {s : List Cell}
    (h0 : getC s 0 = none) {i : ℕ} (hip : i < p) :
    getC (rollingMean p s) i = none := by
  rw [rollingMean, getC_seriesOfFn]
  split
  · split
    · rfl
    · next hle =>
      have hi1 : i + 1 = p := le_antisymm (by omega) (not_lt.1 hle)
      have hmem : (none : Cell) ∈ (List.range p).map (fun j => getC s (i + 1 - p + j)) := by
        refine List.mem_map.2 ⟨0, List.mem_range.2 hp, ?_⟩
        rw [hi1]
        simpa using h0
      rw [windowAt, allSome_eq_none hmem]
      rfl
  · rfl

theorem gainSeries_warmup {p : ℕ} (hp : 0 < p) (close : List Cell) {i : ℕ} (hip : i < p) :
    getC (gainSeries p close) i = none := by
  unfold gainSeries
  exact rollingMean_warmup hp (by rw [getC_map wherePos_none, diffS_zero, wherePos_none]) hip

theorem lossSeries_warmup {p : ℕ} (hp : 0 < p) (close : List Cell) {i : ℕ} (hip : i < p) :
    getC (lossSeries p close) i = none := by
  unfold lossSeries
  exact rollingMean_warmup hp (by rw [getC_map whereNeg_none, diffS_zero, whereNeg_none]) hip

theorem gainSeries_nonneg {p : ℕ} {close : List Cell} {i : ℕ} {g : ℚ}
    (h : getC (gainSeries p close) i = some g) : 0 ≤ g := by
  refine rollingMean_nonneg (fun j v hv => ?_) h
  rw [getC_map wherePos_none] at hv
  exact cellWherePos_nonneg hv

theorem lossSeries_nonneg {p : ℕ} {close : List Cell} {i : ℕ} {l : ℚ}
    (h : getC (lossSeries p close) i = some l) : 0 ≤ l := by
  refine rollingMean_nonneg (fun j v hv => ?_) h
  rw [getC_map whereNeg_none] at hv
  exact cellWhereNeg_nonneg hv

theorem rsiCell_bounds {g l v : ℚ} (hg : 0 ≤ g) (hl : 0 ≤ l)
    (h : rsiCell (some g) (some l) = some v) : 0 ≤ v ∧ v ≤ 100 := by
  simp only [rsiCell] at h
  by_cases hl0 : l = 0
  · rw [if_pos hl0] at h
    by_cases hg0 : g = 0
    · rw [if_pos hg0] at h; simp at h
    · rw [if_neg hg0] at h
      simp only [Option.some.injEq] at h
      subst h
      norm_num
  · rw [if_neg hl0] at h
    simp only [Option.some.injEq] at h
    subst h
    have hlpos : 0 < l := lt_of_le_of_ne hl (Ne.symm hl0)
    have hgl : 0 ≤ g / l := div_nonneg hg hlpos.le
    have h1 : (0 : ℚ) < 1 + g / l := by linarith
    have h2 : 100 / (1 + g / l) ≤ 100 := by
      rw [div_le_iff h1]
      nlinarith
    have h3 : 0 < 100 / (1 + g / l) := div_pos (by norm_num) h1
    constructor <;> linarith

/- ----------------------------------------------------------------------
   Claim theorems
   ---------------------------------------------------------------------- -/

attribute [local semireducible] Rat.mul Rat.inv Rat.add Rat.sub

set_option maxRecDepth 100000

/-- Claim C1, amended.  For positive `volume_min`, `volume_max`,
`volume_step` (with `volume_min ≤ volume_max`), every `PositionSizeResult`
produced by `calculate_position_size` carries a volume that is an exact
integer multiple of `volume_step` and at most `volume_max`; it is at least
`volume_min` *provided* `volume_min` is itself an exact multiple of
`volume_step`.  (Without that proviso the floor-rounding can leave the
volume below `volume_min` — see the counterexample.) -/
theorem calculatePositionSize_volume_step_bounds
    (st : RiskManagerState) (cd : ℤ) (account : Option AccountInfo) (si : SymbolInfo)
    (pp hp stop : ℚ) (r : PositionSizeResult) (st' : RiskManagerState)
    (hmin : 0 < si.volume_min) (hmm : si.volume_min ≤ si.volume_max)
    (hstep : 0 < si.volume_step)
    (h : calculatePositionSize st cd account (some si) pp hp stop = (.ok (some r), st')) :
    (∃ k : ℤ, r.volume = k * si.volume_step) ∧ r.volume ≤ si.volume_max ∧
      ((∃ m : ℤ, si.volume_min = m * si.volume_step) → si.volume_min ≤ r.volume) := by
  unfold calculatePositionSize at h
  split at h
  · exact absurd h (by simp)
  · exact absurd h (by simp)
  · split at h
    · exact absurd h (by simp)
    · cases account with
      | none => exact absurd h (by simp)
      | some acc =>
        dsimp only at h
        split at h
        · exact absurd h (by simp)
        · split at h
          · exact absurd h (by simp)
          · next w hadj =>
            simp only [Prod.mk.injEq, Except.ok.injEq, Option.some.injEq] at h
            obtain ⟨hr, hst⟩ := h
            subst hr
            exact adjustVolume_ok_spec hmin hmm hstep hadj

/-- Claim C1, counterexample to the claim as stated: against `stepSymbol`
(`volume_min = 0.1`, `volume_max = 10`, `volume_step = 0.3`, all positive)
with a positive stop distance of 1000 points, `calculate_position_size`
returns a result whose volume 0 lies *below* `volume_min`, because the
clamped raw volume 0.1 floors to zero steps. -/
theorem calculatePositionSize_volume_below_min_cex :
    calculatePositionSize readyRiskState 0 (some ⟨10000⟩) (some stepSymbol) 0 0 1000 =
      (.ok (some { volume := 0, risk_amount := 100, risk_percent := 1,
                   stop_loss_pips := 1000 }), readyRiskState) ∧
    0 < stepSymbol.volume_min ∧ stepSymbol.volume_min ≤ stepSymbol.volume_max ∧
    0 < stepSymbol.volume_step ∧ (0 : ℚ) < 1000 ∧ ¬ stepSymbol.volume_min ≤ 0 := by
  decide

/-- Claim C1, witness: the amended theorem applied to a concrete run
against `smoothSymbol` (positive constraints, `volume_min ≤ volume_max`)
that returns volume 2; every hypothesis is discharged by evaluation. -/
theorem calculatePositionSize_volume_step_bounds_witness :
    (∃ k : ℤ, c7Result.volume = k * smoothSymbol.volume_step) ∧
    c7Result.volume ≤ smoothSymbol.volume_max ∧
    ((∃ m : ℤ, smoothSymbol.volume_min = m * smoothSymbol.volume_step) →
      smoothSymbol.volume_min ≤ c7Result.volume) :=
  calculatePositionSize_volume_step_bounds readyRiskState 0 (some ⟨10000⟩) smoothSymbol
    0 0 50 c7Result readyRiskState (by decide) (by decide) (by decide) (by decide)

/-- Claim C2.  The ordering invariant `risk_per_trade ≤ risk_all_trades ≤
daily_risk` with every value in `(0, 100]` holds in the initial
`RiskManager` state and is preserved by every `update_settings` call;
a triple violating the range or the ordering makes `update_settings`
return a validation error with the state exactly as before. -/
theorem updateSettings_ordering_invariant :
    (∀ t : ℤ, riskOrderingInvariant (initialRiskManagerState t)) ∧
    (∀ st account r a d, riskOrderingInvariant st →
      riskOrderingInvariant (updateSettings st account r a d).2) ∧
    (∀ st account r a d,
      ¬ (0 < r ∧ r ≤ 100 ∧ 0 < a ∧ a ≤ 100 ∧ 0 < d ∧ d ≤ 100 ∧ r ≤ a ∧ a ≤ d) →
      updateSettings st account r a d = (.error .validation, st)) := by
  refine ⟨?_, ?_, ?_⟩
  · intro t
    exact ⟨by norm_num [initialRiskManagerState], by norm_num [initialRiskManagerState],
      by norm_num [initialRiskManagerState], by norm_num [initialRiskManagerState]⟩
  · intro st account r a d hinv
    unfold updateSettings
    split
    · exact hinv
    · next u hv =>
      obtain ⟨hr, hr2, ha, ha2, hd, hd2, hra, had⟩ := validateRiskParameters_ok_elim hv
      dsimp only
      split
      · exact ⟨hr, hra, had, hd2⟩
      · next st2 heq2 =>
        unfold updateDailyLimits at heq2
        cases account with
        | none => exact absurd heq2 (by simp)
        | some acc =>
          simp only [Except.ok.injEq] at heq2
          subst heq2
          exact ⟨hr, hra, had, hd2⟩
  · intro st account r a d h
    unfold updateSettings
    rw [validateRiskParameters_reject h]

/-- Claim C2, witness: a valid update (2, 3, 4) keeps the invariant, and
the order-violating triple (5, 3, 4) is rejected with the prior state
untouched. -/
theorem updateSettings_ordering_invariant_witness :
    riskOrderingInvariant (updateSettings (initialRiskManagerState 0) (some ⟨1000⟩) 2 3 4).2 ∧
    updateSettings (initialRiskManagerState 0) (some ⟨1000⟩) 5 3 4 =
      (.error .validation, initialRiskManagerState 0) :=
  ⟨updateSettings_ordering_invariant.2.1 (initialRiskManagerState 0) (some ⟨1000⟩) 2 3 4
      (by decide),
   updateSettings_ordering_invariant.2.2 (initialRiskManagerState 0) (some ⟨1000⟩) 5 3 4
      (by decide)⟩

/-- Claim C3 (code bug, evaluation at the failing inputs).  With daily
limits passing and a positive stop distance, a missing account provider —
and likewise missing symbol metadata — makes `calculate_position_size`
raise `RiskManagementError` across its boundary instead of returning
`None`: the internal raise lands in `except Exception`, which re-raises,
contradicting the spec's fail-closed contract and the method's own
docstring ("Результат расчета или None при ошибке"). -/
theorem calculatePositionSize_missing_provider_raises :
    calculatePositionSize readyRiskState 0 none (some stepSymbol) 0 0 50 =
      (.error .management, readyRiskState) ∧
    calculatePositionSize readyRiskState 0 (some ⟨10000⟩) none 0 0 50 =
      (.error .management, readyRiskState) := by
  decide

/-- Claim C4, counterexample to the claim as stated: `SmartSniperStrategy`
has no `try`/`except` in `analyze`, so an exception raised during its
in-`analyze` indicator recomputation — here the `KeyError` from reading the
missing `high` column of a 100-row frame — propagates to the caller instead
of becoming a logged `None`. -/
theorem smartSniperAnalyze_propagates_cex :
    smartSniperAnalyze true "EURUSD" 60 smartSniperBareFrame = .error (.keyError "high") := by
  decide

/-- Claim C4, amended.  The Sniper and Smart Money `analyze` bodies are
wrapped in `try`/`except`: whenever the body raises, the call returns
`None` and no exception crosses the boundary.  `SmartSniperStrategy`'s
`analyze` has no such handler: when it is enabled, the history gate passes
and `calculate_indicators` raises, the same exception propagates to the
caller. -/
theorem analyze_exception_boundaries :
    (∀ cfg sym tf df e en, sniperAnalyzeBody cfg sym tf df = .error e →
      sniperAnalyze en cfg sym tf df = none) ∧
    (∀ cfg sym tf df e en, smartMoneyAnalyzeBody cfg sym tf df = .error e →
      smartMoneyAnalyze en cfg sym tf df = none) ∧
    (∀ sym tf df e, 100 ≤ df.nrows → smartSniperCalculateIndicators df = .error e →
      smartSniperAnalyze true sym tf df = .error e) := by
  refine ⟨?_, ?_, ?_⟩
  · intro cfg sym tf df e en h
    cases en <;> simp [sniperAnalyze, h]
  · intro cfg sym tf df e en h
    cases en <;> simp [smartMoneyAnalyze, h]
  · intro sym tf df e hlen h
    simp [smartSniperAnalyze, Nat.not_lt.2 hlen, h, Bind.bind, Except.bind]

/-- Claim C4, witness: an enabled Sniper strategy fed an 85-row frame with
no indicator columns hits `KeyError('sma_fast')` in its body and the call
returns `None`. -/
theorem analyze_exception_boundaries_witness :
    sniperAnalyze true sniperDefaultCfg "EURUSD" 60 sniperBareFrame = none :=
  analyze_exception_boundaries.1 sniperDefaultCfg "EURUSD" 60 sniperBareFrame
    (.keyError "sma_fast") true (by decide)

/-- Claim C5, counterexample to the claim as stated: on `smBothFrame`
(enriched by the Smart Money indicator pipeline) the BUY and SELL
conditions of `SmartMoneyStrategy.analyze` are simultaneously true on the
final bar, yet the evaluator returns the BUY signal — the buy branch is
checked first — rather than `None`. -/
theorem smartMoneyAnalyze_both_conditions_cex :
    (smartMoneyCtx smBothEnriched).map
      (fun c => (smartMoneyBuyCond c, smartMoneySellCond c)) = .ok (true, true) ∧
    (smartMoneyAnalyze true smCfg "EURUSD" 60 smBothEnriched).map Signal.action =
      some TradeAction.buy := by
  constructor
  · decide
  · decide

/-- Claim C5, amended.  If both the BUY and the SELL condition of
`SmartMoneyStrategy.analyze` hold for the current bar (reachable, e.g. on
`smBothFrame`), the evaluator emits the BUY signal, because the buy branch
is tested first; in `SniperStrategy` the two conditions are mutually
exclusive by the SMA-trend gating, so the situation cannot arise there. -/
theorem analyze_simultaneous_conditions :
    (∀ cfg sym tf (df : Frame),
      (smartMoneyCtx df).map (fun c => (smartMoneyBuyCond c, smartMoneySellCond c)) =
        .ok (true, true) →
      smartMoneyRequiredHistorySize cfg ≤ df.nrows →
      (smartMoneyAnalyze true cfg sym tf df).map Signal.action = some TradeAction.buy) ∧
    (∀ c : SniperCtx, (sniperBuyCond c && sniperSellCond c) = false) := by
  constructor
  · intro cfg sym tf df hconds hlen
    cases hctx : smartMoneyCtx df with
    | error e => rw [hctx] at hconds; exact absurd hconds (by simp [Except.map])
    | ok c =>
      rw [hctx] at hconds
      simp only [Except.map, Except.ok.injEq, Prod.mk.injEq] at hconds
      obtain ⟨hbuy, hsell⟩ := hconds
      simp [smartMoneyAnalyze, smartMoneyAnalyzeBody, Nat.not_lt.2 hlen, hctx,
        Bind.bind, Except.bind, Pure.pure, Except.pure, hbuy]
  · intro c
    by_cases hb : sniperBuyCond c = true
    · have htrend : cellLt c.smaSlow c.smaFast = true := by
        simp only [sniperBuyCond, Bool.and_eq_true] at hb
        exact hb.1.1.1.1.1
      have hrev : cellLt c.smaFast c.smaSlow = false := by
        by_contra hc
        exact cellLt_asymm htrend (Bool.not_eq_false _ ▸ (eq_true_of_ne_false hc))
      simp [sniperSellCond, hrev]
    · simp only [Bool.not_eq_true] at hb
      simp [hb]

/-- Claim C5, witness: the amended theorem applied to the concrete
both-conditions frame. -/
theorem analyze_simultaneous_conditions_witness :
    (smartMoneyAnalyze true smCfg "EURUSD" 60 smBothEnriched).map Signal.action =
      some TradeAction.buy :=
  analyze_simultaneous_conditions.1 smCfg "EURUSD" 60 smBothEnriched (by decide) (by decide)

/-- Claim C6.  For a positive period, the RSI column of the shared
indicator pipeline is undefined on the whole warmup region `[0, period)`;
wherever it is defined its value lies in `[0, 100]`; and when the rolling
average loss is exactly zero while the average gain is positive, the value
is exactly 100 (the float expression `100 - 100/(1 + gain/0)` saturates
through `+inf`). -/
theorem rsiSeries_bounds_and_saturation (p : ℕ) (close : List Cell) (hp : 0 < p) :
    (∀ i, i < p → getC (rsiSeries p close) i = none) ∧
    (∀ i v, getC (rsiSeries p close) i = some v → 0 ≤ v ∧ v ≤ 100) ∧
    (∀ i g, getC (gainSeries p close) i = some g → 0 < g →
      getC (lossSeries p close) i = some 0 → getC (rsiSeries p close) i = some 100) := by
  refine ⟨?_, ?_, ?_⟩
  · intro i hip
    rw [rsiSeries, getC_seriesOfFn]
    split
    · rw [gainSeries_warmup hp close hip]
      rfl
    · rfl
  · intro i v h
    rw [rsiSeries, getC_seriesOfFn] at h
    split at h
    · cases hgc : getC (gainSeries p close) i with
      | none => rw [hgc] at h; simp [rsiCell] at h
      | some g =>
        cases hlc : getC (lossSeries p close) i with
        | none => rw [hgc, hlc] at h; simp [rsiCell] at h
        | some l =>
          rw [hgc, hlc] at h
          exact rsiCell_bounds (gainSeries_nonneg hgc) (lossSeries_nonneg hlc) h
    · simp at h
  · intro i g hgc hgpos hlc
    have hi : i < close.length := by
      by_contra hge
      rw [gainSeries, rollingMean, getC_seriesOfFn] at hgc
      have hlen : ((diffS close).map wherePos).length = close.length := by
        simp [diffS, seriesOfFn]
      rw [if_neg (by rw [hlen]; exact hge)] at hgc
      exact absurd hgc (by simp)
    rw [rsiSeries, getC_seriesOfFn, if_pos hi, hgc, hlc]
    simp [rsiCell, ne_of_gt hgpos]

/-- Claim C6, witness: with period 2 on the strictly rising close series,
index 1 is still warmup (undefined) and index 2 has average gain 3/2 and
average loss 0, so the RSI is exactly 100. -/
theorem rsiSeries_bounds_and_saturation_witness :
    getC (rsiSeries 2 risingClose) 1 = none ∧
    getC (rsiSeries 2 risingClose) 2 = some 100 :=
  ⟨(rsiSeries_bounds_and_saturation 2 risingClose (by decide)).1 1 (by decide),
   (rsiSeries_bounds_and_saturation 2 risingClose (by decide)).2.2 2 (3/2)
     (by decide) (by decide) (by decide)⟩

/-- Claim C7.  The documented sizing scenario: balance 10000 and 1%
per-trade risk give `risk_amount = 100`; a 50-point stop with tick value 1
gives raw volume 2.0; and the full `calculate_position_size` run on a
symbol whose constraints do not bite returns exactly that volume, risk
amount, risk percent and stop distance. -/
theorem calculatePositionSize_scenario_equity10000 :
    riskAmount 10000 1 = 100 ∧
    rawVolume (riskAmount 10000 1) 50 1 = 2 ∧
    calculatePositionSize readyRiskState 0 (some ⟨10000⟩) (some smoothSymbol) 0 0 50 =
      (.ok (some c7Result), readyRiskState) := by
  refine ⟨by norm_num [riskAmount], by norm_num [riskAmount, rawVolume], by decide⟩

/-- Claim C8.  The pin-bar classifier of the pattern pipeline, evaluated on
any bar with defined OHLC geometry, flags the bar exactly when the body
`|close - open|` is strictly positive and the larger of the two shadows
exceeds `threshold × body`; in particular a zero-body bar is never flagged,
and no division error can occur (the quotient against a zero body is an
undefined cell — in float terms `inf` or `NaN` — which the `body > 0`
conjunct silences either way). -/
theorem pinbarCell_geometry (threshold o h l c : ℚ) :
    pinbarCell threshold (csub (some h) (cmaxSkip (some o) (some c)))
        (csub (cminSkip (some o) (some c)) (some l)) (cabs (csub (some c) (some o))) =
      boolCell (decide (threshold * |c - o| < max (h - max o c) (min o c - l)) &&
        decide (0 < |c - o|)) := by
  simp only [pinbarCell, csub, cmaxSkip, cminSkip, cabs, cdiv]
  by_cases hb : |c - o| = 0
  · have hnpos : ¬ (0 : ℚ) < |c - o| := by rw [hb]; exact lt_irrefl 0
    simp [hb, cellGtq, hnpos]
  · have hbpos : 0 < |c - o| := lt_of_le_of_ne (abs_nonneg _) (Ne.symm hb)
    have hiff : (threshold < (h - max o c) / |c - o| ∨
        threshold < (min o c - l) / |c - o|) ↔
        threshold * |c - o| < max (h - max o c) (min o c - l) := by
      rw [lt_div_iff hbpos, lt_div_iff hbpos, lt_max_iff]
    simp only [if_neg hb, cellGtq]
    rw [← Bool.decide_or]
    simp only [hiff]

/-- Claim C9.  When `check_daily_limits` runs on the same calendar date as
the stored trading day, the state — `today`, `daily_profit`,
`daily_loss_limit` and everything else — is left exactly unchanged: the
day-reset mutation happens only on a date change. -/
theorem checkDailyLimits_same_day_frame (st : RiskManagerState) (cd : ℤ)
    (account : Option AccountInfo) (pp hp : ℚ) (h : cd = st.today) :
    (checkDailyLimits st cd account pp hp).2 = st := by
  unfold checkDailyLimits
  rw [if_neg (by simp [h])]
  dsimp only
  split <;> rfl

/-- Claim C9, witness: a same-day check (with no account provider and
nonzero profit inputs) returns with the state intact. -/
theorem checkDailyLimits_same_day_frame_witness :
    (checkDailyLimits readyRiskState 0 none 5 7).2 = readyRiskState :=
  checkDailyLimits_same_day_frame readyRiskState 0 none 5 7 (by decide)

/-- Claim C10.  `enable()` with a disconnected client is a no-op on the
strategy state, and over any sequence of `enable`/`disable` calls starting
from the default-disabled state, the strategy can only end up enabled if
some `enable()` happened while the client was connected. -/
theorem strategyEnable_requires_connection :
    (∀ st, strategyEnable false st = st) ∧
    (∀ ops : List StrategyOp, (runStrategyOps ops { enabled := false }).enabled = true →
      StrategyOp.enableOp true ∈ ops) := by
  constructor
  · intro st; rfl
  · intro ops h
    rcases runStrategyOps_enabled_source ops { enabled := false } h with hmem | hen
    · exact hmem
    · exact absurd hen (by simp)

/-- Claim C10, witness: a run consisting of one connected `enable()` ends
enabled, and the theorem recovers that call from the trace. -/
theorem strategyEnable_requires_connection_witness :
    StrategyOp.enableOp true ∈ [StrategyOp.enableOp true] :=
  strategyEnable_requires_connection.2 [StrategyOp.enableOp true] (by decide)
